import Mathlib

/-!
Verification development for the Student Project Portal server
(`Student-Project-Portal/server.js`).

The server is an Express application.  We embed the request handlers as
pure Lean functions over explicit state: the JSON-backed record store is
a list of records, the filesystem is a finite map from paths to byte
sizes plus a set of directories, and the clock and UUID generator are
fields of the server state.  JavaScript strings are modelled as lists of
Unicode characters (`List Char`); where UTF-16 code-unit length differs
from UTF-8 byte length this is modelled explicitly.

The database module (`database.js`) is required by `server.js` but is
not part of the sources; its operations are modelled from the
specification of the Record Store and are marked as such below.
-/

namespace SPP

/-- JavaScript strings are modelled as lists of Unicode scalar values. -/
abbrev JSStr := List Char

/-- The character for a single decimal digit, as produced by JavaScript
number-to-string conversion. -/
def digitChar (d : Nat) : Char := Char.ofNat (48 + d)

/-- Fuel-carrying helper for decimal notation of a natural number; the
fuel keeps the recursion structural so that terms reduce by
computation. -/
def natToStrAux (fuel : Nat) (n : Nat) : JSStr :=
  match fuel with
  | 0 => []
  | fuel + 1 =>
    if n < 10 then [digitChar n]
    else natToStrAux fuel (n / 10) ++ [digitChar (n % 10)]

/-- Decimal representation of a natural number, as produced by JavaScript
template-literal interpolation of a number. -/
def natToStr (n : Nat) : JSStr := natToStrAux (n + 1) n

/-- Zero-padding to a fixed width, as used by `Date.prototype.toISOString`. -/
def pad (w n : Nat) : JSStr :=
  List.replicate (w - (natToStr n).length) '0' ++ natToStr n

/-- The UTF-16 code-unit count of a string: this is what the JavaScript
`length` property returns. -/
def jsLength (s : JSStr) : Nat :=
  (s.map (fun c => if c.toNat < 65536 then 1 else 2)).sum

/-- The number of bytes of the UTF-8 encoding of a string: this is the
on-disk size of a file written with encoding utf8. -/
def utf8Len (s : JSStr) : Nat :=
  (s.map (fun c =>
    if c.toNat < 128 then 1
    else if c.toNat < 2048 then 2
    else if c.toNat < 65536 then 3
    else 4)).sum

/-- Model of `path.join` on two components: separator concatenation.
Path normalisation performed by Node is not modelled; the handlers under
study only ever join plain path segments. -/
def pathJoin (a b : JSStr) : JSStr := a ++ ('/' :: b)

/-- Model of `path.join` on three components. -/
def pathJoin3 (a b c : JSStr) : JSStr := pathJoin (pathJoin a b) c

/-- The fixed file name student-info.txt. -/
def studentInfoTxt : JSStr := ("student-info.txt").toList

/-- JavaScript truthiness of an optional string field of a request body:
`undefined` and the empty string are falsy. -/
def truthyStr (o : Option JSStr) : Bool :=
  match o with
  | none => false
  | some s => !s.isEmpty

/-- The characters stripped by `generateFolderName` (`server.js` line 54):
the class `[<>:"/\\|?*]`. -/
def forbiddenChars : List Char := ['<', '>', ':', '\"', '/', '\\', '|', '?', '*']

/-- The JavaScript regular-expression class `\s` (whitespace), used by the
`\s+` replacement in `generateFolderName` (`server.js` line 55). -/
def jsIsSpace (c : Char) : Bool :=
  c = ' ' || c = '\t' || c = '\n' || c = '\r' ||
  c.toNat = 11 || c.toNat = 12 || c.toNat = 160 || c.toNat = 5760 ||
  (8192 ≤ c.toNat && c.toNat ≤ 8202) || c.toNat = 8232 || c.toNat = 8233 ||
  c.toNat = 8239 || c.toNat = 8287 || c.toNat = 12288 || c.toNat = 65279

/-- Replacement of every forbidden character by an underscore:
`.replace(/[<>:"/\\|?*]/g, "_")` at `server.js` line 54. -/
def replaceForbidden (s : JSStr) : JSStr :=
  s.map (fun c => if c ∈ forbiddenChars then '_' else c)

/-- Structural helper for the `\s+` replacement: the flag records whether
the previous character was part of a whitespace run already replaced. -/
def collapseAux : Bool → List Char → JSStr
  | _, [] => []
  | inRun, c :: rest =>
    if jsIsSpace c then
      if inRun then collapseAux true rest
      else '_' :: collapseAux true rest
    else c :: collapseAux false rest

/-- Replacement of every maximal whitespace run by a single underscore:
`.replace(/\s+/g, "_")` at `server.js` line 55. -/
def collapseWhitespace (s : JSStr) : JSStr := collapseAux false s

/-- The cleaned project name computed by `generateFolderName`
(`server.js` lines 53-56): strip forbidden characters, collapse
whitespace to underscores, truncate to 50 characters. -/
def cleanProjectName (projectName : JSStr) : JSStr :=
  ((collapseWhitespace (replaceForbidden projectName))).take 50

/-- Date components, standing in for a JavaScript `Date` value. -/
structure JsDate where
  year : Nat
  month : Nat
  day : Nat
  hour : Nat
  minute : Nat
  second : Nat
  ms : Nat
deriving DecidableEq

/-- The output format of `Date.prototype.toISOString`:
`YYYY-MM-DDTHH:mm:ss.sssZ`. -/
def toISOString (d : JsDate) : JSStr :=
  pad 4 d.year ++ ('-' :: pad 2 d.month) ++ ('-' :: pad 2 d.day) ++
  ('T' :: pad 2 d.hour) ++ (':' :: pad 2 d.minute) ++ (':' :: pad 2 d.second) ++
  ('.' :: pad 3 d.ms) ++ ['Z']

/-- Replacement of the first occurrence of the character T by an
underscore: `.replace("T", "_")` at `server.js` line 49 (a string
pattern replaces only the first occurrence). -/
def replaceFirstT : JSStr → JSStr
  | [] => []
  | c :: rest => if c = 'T' then '_' :: rest else c :: replaceFirstT rest

/-- The timestamp part of `generateFolderName` (`server.js` lines 46-50):
ISO string with colons and dots replaced by dashes, the first T replaced
by an underscore, truncated to 19 characters. -/
def timestampOf (d : JsDate) : JSStr :=
  (replaceFirstT ((toISOString d).map
    (fun c => if c = ':' ∨ c = '.' then '-' else c))).take 19

/-- The folder naming utility `generateFolderName` (`server.js` lines
45-59): cleaned project name, underscore, timestamp. -/
def generateFolderName (projectName : JSStr) (d : JsDate) : JSStr :=
  cleanProjectName projectName ++ ('_' :: timestampOf d)

lemma mem_natToStrAux {c : Char} {fuel n : Nat} (h : c ∈ natToStrAux fuel n) :
    ∃ d, d < 10 ∧ c = digitChar d := by
  induction fuel generalizing n with
  | zero => simp [natToStrAux] at h
  | succ fuel ih =>
    rw [natToStrAux] at h
    by_cases hn : n < 10
    · simp only [if_pos hn, List.mem_singleton] at h
      exact ⟨n, hn, h⟩
    · simp only [if_neg hn, List.mem_append, List.mem_singleton] at h
      rcases h with h | h
      · exact ih h
      · exact ⟨n % 10, Nat.mod_lt _ (by omega), h⟩

lemma mem_natToStr {c : Char} {n : Nat} (h : c ∈ natToStr n) :
    ∃ d, d < 10 ∧ c = digitChar d := mem_natToStrAux h

lemma mem_pad {c : Char} {w n : Nat} (h : c ∈ pad w n) :
    ∃ d, d < 10 ∧ c = digitChar d := by
  rcases List.mem_append.mp h with h | h
  · exact ⟨0, by omega, (List.eq_of_mem_replicate h)⟩
  · exact mem_natToStr h

lemma digitChar_not_forbidden {d : Nat} (hd : d < 10) :
    digitChar d ∉ forbiddenChars := by
  interval_cases d <;> decide

lemma mem_collapseAux {c : Char} {b : Bool} {s : List Char}
    (h : c ∈ collapseAux b s) : c = '_' ∨ c ∈ s := by
  induction s generalizing b with
  | nil => simp [collapseAux] at h
  | cons x rest ih =>
    rw [collapseAux] at h
    by_cases hx : jsIsSpace x
    · simp only [if_pos hx] at h
      by_cases hb : b
      · subst hb
        rcases ih h with h1 | h1
        · exact Or.inl h1
        · exact Or.inr (List.mem_cons_of_mem _ h1)
      · simp only [Bool.not_eq_true] at hb
        subst hb
        rcases List.mem_cons.mp h with h1 | h1
        · exact Or.inl h1
        · rcases ih h1 with h2 | h2
          · exact Or.inl h2
          · exact Or.inr (List.mem_cons_of_mem _ h2)
    · simp only [if_neg hx] at h
      rcases List.mem_cons.mp h with h1 | h1
      · exact Or.inr (h1 ▸ List.mem_cons_self _ _)
      · rcases ih h1 with h2 | h2
        · exact Or.inl h2
        · exact Or.inr (List.mem_cons_of_mem _ h2)

lemma mem_replaceForbidden {c : Char} {s : JSStr}
    (h : c ∈ replaceForbidden s) : c ∉ forbiddenChars := by
  rcases List.mem_map.mp h with ⟨b, _, hb⟩
  by_cases hbf : b ∈ forbiddenChars
  · rw [if_pos hbf] at hb
    rw [← hb]
    decide
  · rw [if_neg hbf] at hb
    exact hb ▸ hbf

lemma mem_cleanProjectName {c : Char} {s : JSStr}
    (h : c ∈ cleanProjectName s) : c ∉ forbiddenChars := by
  have h1 := List.take_subset _ _ h
  rcases mem_collapseAux h1 with h2 | h2
  · rw [h2]; decide
  · exact mem_replaceForbidden h2

lemma mem_replaceFirstT {c : Char} {s : JSStr}
    (h : c ∈ replaceFirstT s) : c = '_' ∨ c ∈ s := by
  induction s with
  | nil => simp [replaceFirstT] at h
  | cons x rest ih =>
    rw [replaceFirstT] at h
    by_cases hx : x = 'T'
    · simp only [if_pos hx] at h
      rcases List.mem_cons.mp h with h1 | h1
      · exact Or.inl h1
      · exact Or.inr (List.mem_cons_of_mem _ h1)
    · simp only [if_neg hx] at h
      rcases List.mem_cons.mp h with h1 | h1
      · exact Or.inr (h1 ▸ List.mem_cons_self _ _)
      · rcases ih h1 with h2 | h2
        · exact Or.inl h2
        · exact Or.inr (List.mem_cons_of_mem _ h2)

lemma mem_toISOString {c : Char} {d : JsDate} (h : c ∈ toISOString d) :
    c ∈ ['-', 'T', ':', '.', 'Z'] ∨ ∃ k, k < 10 ∧ c = digitChar k := by
  unfold toISOString at h
  simp only [List.append_assoc, List.mem_append, List.mem_cons,
    List.mem_singleton] at h
  rcases h with h | h | h | h | h | h | h | h
  all_goals first
    | (exact Or.inr (mem_pad h))
    | (rcases h with h | h
       · subst h; simp
       · exact Or.inr (mem_pad h))
    | (rcases h with h | h
       · subst h; simp
       · exact absurd h (List.not_mem_nil c))

lemma mem_timestampOf {c : Char} {d : JsDate} (h : c ∈ timestampOf d) :
    c ∉ forbiddenChars := by
  have h1 := List.take_subset _ _ h
  rcases mem_replaceFirstT h1 with h2 | h2
  · rw [h2]; decide
  · rcases List.mem_map.mp h2 with ⟨b, hb, hbc⟩
    by_cases hcol : b = ':' ∨ b = '.'
    · rw [if_pos hcol] at hbc
      rw [← hbc]; decide
    · rw [if_neg hcol] at hbc
      subst hbc
      rcases mem_toISOString hb with h3 | ⟨k, hk, hkc⟩
      · revert hcol
        fin_cases h3 <;> intro hcol <;> first | decide | (exact absurd (by simp) hcol)
      · exact hkc ▸ digitChar_not_forbidden hk

/-- C4: the folder name produced by `generateFolderName` contains none of
the characters forbidden in filesystem names, and the cleaned name
portion before the timestamp suffix has length at most 50. -/
theorem c4_folder_name_clean_and_bounded (projectName : JSStr) (d : JsDate) :
    (∀ c ∈ generateFolderName projectName d, c ∉ forbiddenChars) ∧
    (cleanProjectName projectName).length ≤ 50 := by
  constructor
  · intro c hc
    unfold generateFolderName at hc
    rcases List.mem_append.mp hc with h | h
    · exact mem_cleanProjectName h
    · rcases List.mem_cons.mp h with h1 | h1
      · rw [h1]; decide
      · exact mem_timestampOf h1
  · exact le_trans (List.length_take_le _ _) (le_refl _)

/-- Model of `path.extname` from Node: the suffix of the basename
starting at its last dot; empty when the basename has no dot, when the
dot is its first character, or for the special name consisting of two
dots. -/
def extname (s : JSStr) : JSStr :=
  let base := (s.reverse.takeWhile (fun c => !(c = '/' || c = '\\'))).reverse
  let revAfter := base.reverse.takeWhile (fun c => decide (c ≠ '.'))
  if revAfter.length = base.length then []
  else if base.length - revAfter.length - 1 = 0 then []
  else if base = ['.', '.'] then []
  else '.' :: revAfter.reverse

/-- A team member as carried in request bodies and records: name and
university serial number, both free text. -/
structure TeamMember where
  name : JSStr
  usn : JSStr
deriving DecidableEq

/-- File metadata as stored in the files map of a project record. -/
structure FileMeta where
  name : JSStr
  path : JSStr
  size : Nat
deriving DecidableEq

/-- The files map of a project record.  `studentInfo` is attached only at
completion time; `teamMembers` only ever appears on legacy records and is
deleted by the migration endpoint. -/
structure FilesMap where
  readme : FileMeta
  installation : FileMeta
  source : FileMeta
  studentInfo : Option FileMeta
  teamMembers : Option FileMeta
deriving DecidableEq

/-- A project record of the Record Store. -/
structure ProjectRecord where
  id : JSStr
  projectName : JSStr
  timestamp : JSStr
  teamMembers : List TeamMember
  folderName : Option JSStr
  projectPath : JSStr
  files : FilesMap
deriving DecidableEq

/-- Model of `uuidv4()`: an injective identifier drawn from a counter in
the server state, capturing that each call yields a fresh identifier. -/
def uuidFrom (n : Nat) : JSStr := ('u' :: natToStr n)

namespace Store

/-- Modelled from the spec: `database.js` is required by `server.js` but
is not among the sources.  `create(record)` appends to the collection and
persists it. -/
def createProject (s : List ProjectRecord) (r : ProjectRecord) :
    List ProjectRecord := s ++ [r]

/-- Modelled from the spec: `update(id, patch)` replaces the record
matching the identifier in place; no-op when the identifier is absent. -/
def updateProject : List ProjectRecord → JSStr → ProjectRecord →
    List ProjectRecord
  | [], _, _ => []
  | p :: ps, i, r =>
    if p.id = i then r :: ps else p :: updateProject ps i r

/-- Modelled from the spec: `getAll()` returns the full collection in
insertion order. -/
def getAllProjects (s : List ProjectRecord) : List ProjectRecord := s

/-- Modelled from the spec: `getById(id)` is a linear lookup by
identifier equality.  The lookup key is optional because JavaScript
callers can pass `undefined`, which equals no stored identifier. -/
def getProjectById (s : List ProjectRecord) (k : Option JSStr) :
    Option ProjectRecord :=
  match k with
  | none => none
  | some i => s.find? (fun p => decide (p.id = i))

end Store

/-- The filesystem model: regular files with their byte sizes,
directories, and a set of paths on which mutating operations raise an
IO error (standing for permission or disk failures). -/
structure FileSys where
  files : List (JSStr × Nat)
  dirs : List JSStr
  broken : List JSStr
deriving DecidableEq

/-- Lookup of the byte size of a regular file. -/
def fsLookup (files : List (JSStr × Nat)) (p : JSStr) : Option Nat :=
  (files.find? (fun e => decide (e.1 = p))).map (fun e => e.2)

/-- Removal of a key from the files map. -/
def removeKey (files : List (JSStr × Nat)) (k : JSStr) :
    List (JSStr × Nat) :=
  files.filter (fun e => decide (e.1 ≠ k))

namespace FileSys

/-- Model of `fs.existsSync`. -/
def existsS (fs : FileSys) (p : JSStr) : Bool :=
  (fsLookup fs.files p).isSome || decide (p ∈ fs.dirs)

/-- Model of `fs.move` on a regular file with overwrite: the destination
receives the byte size of the staged source file.  Renaming of a
subtree under a moved directory is not tracked. -/
def moveFile (fs : FileSys) (src dst : JSStr) : Except JSStr FileSys :=
  if src ∈ fs.broken ∨ dst ∈ fs.broken then .error (("EPERM").toList)
  else .ok { fs with
    files := (dst, (fsLookup fs.files src).getD 0) ::
      removeKey (removeKey fs.files src) dst }

/-- Model of `fs.move` on a directory (no overwrite; the handlers under
study guard it by existence checks). -/
def moveDir (fs : FileSys) (src dst : JSStr) : Except JSStr FileSys :=
  if src ∈ fs.broken ∨ dst ∈ fs.broken then .error (("EPERM").toList)
  else .ok { fs with dirs := dst :: fs.dirs.erase src }

/-- Model of `fs.writeFile` with encoding utf8: the on-disk size is the
UTF-8 byte count of the content. -/
def writeFile (fs : FileSys) (p : JSStr) (content : JSStr) :
    Except JSStr FileSys :=
  if p ∈ fs.broken then .error (("EPERM").toList)
  else .ok { fs with files := (p, utf8Len content) :: removeKey fs.files p }

/-- Model of `fs.remove` on a regular file. -/
def removeF (fs : FileSys) (p : JSStr) : Except JSStr FileSys :=
  if p ∈ fs.broken then .error (("EPERM").toList)
  else .ok { fs with files := removeKey fs.files p }

end FileSys

/-- The state of the server process: the Record Store contents, the
UUID-generator counter, the filesystem, and the current clock readings
(`toISOString` and `toLocaleString` forms). -/
structure ServerState where
  store : List ProjectRecord
  uuidCounter : Nat
  fs : FileSys
  nowISO : JSStr
  nowLocale : JSStr
deriving DecidableEq

/-- One line of the student information file for one team member
(`server.js` lines 319-321). -/
def memberLine (i : Nat) (m : TeamMember) : JSStr :=
  ("Member ").toList ++ natToStr (i + 1) ++ (":\nName: ").toList ++
  m.name ++ ("\nUSN: ").toList ++ m.usn

/-- Model of `Array.prototype.join` on strings. -/
def joinSep (sep : JSStr) : List JSStr → JSStr
  | [] => []
  | [x] => x
  | x :: y :: rest => x ++ sep ++ joinSep sep (y :: rest)

/-- The body of the student information file (`server.js` lines 319-321). -/
def studentInfoContent (tm : List TeamMember) : JSStr :=
  joinSep (("\n\n").toList) (tm.mapIdx (fun i m => memberLine i m))

/-- The full content of `student-info.txt` (`server.js` line 323). -/
def studentInfoHeader (projectName : JSStr) (tm : List TeamMember)
    (localeNow : JSStr) : JSStr :=
  ("STUDENT INFORMATION\n==================\nProject: ").toList ++
  projectName ++ ("\nDate: ").toList ++ localeNow ++ ("\n\n").toList ++
  studentInfoContent tm

/-- A file staged by multer: original client name, byte size, and the
temporary path it was staged at. -/
structure UploadedFile where
  originalname : JSStr
  size : Nat
  path : JSStr
deriving DecidableEq

/-- An upload request as seen by a handler: the optional staged file and
the optional `projectPath` body field. -/
structure UploadReq where
  file : Option UploadedFile
  projectPath : Option JSStr
deriving DecidableEq

/-- The JSON envelope of an upload response together with the HTTP
status.  `filePath` stands for the `readmePath` / `installPath` /
`sourcePath` field of the respective endpoint. -/
structure UploadResp where
  status : Nat
  success : Bool
  filePath : Option JSStr
  fileName : Option JSStr
  fileSize : Option Nat
deriving DecidableEq

/-- An error envelope with the given status and `success: false`. -/
def errResp (st : Nat) : UploadResp :=
  { status := st, success := false, filePath := none, fileName := none,
    fileSize := none }

/-- The handler of POST /api/upload-readme (`server.js` lines 152-181). -/
def uploadReadme (fs : FileSys) (req : UploadReq) : UploadResp × FileSys :=
  match req.file with
  | none => (errResp 400, fs)
  | some f =>
    if !truthyStr req.projectPath then (errResp 400, fs)
    else
      let pp := req.projectPath.getD []
      let ext := extname f.originalname
      let readmeFileName :=
        if !ext.isEmpty then ("ReadMe").toList ++ ext
        else ("ReadMe.txt").toList
      let readmePath := pathJoin3 pp (("2.README").toList) readmeFileName
      match fs.moveFile f.path readmePath with
      | .error _ => (errResp 500, fs)
      | .ok fs2 =>
        ({ status := 200, success := true, filePath := some readmePath,
           fileName := some readmeFileName, fileSize := some f.size }, fs2)

/-- The handler of POST /api/upload-installation (`server.js` lines
184-212). -/
def uploadInstallation (fs : FileSys) (req : UploadReq) :
    UploadResp × FileSys :=
  match req.file with
  | none => (errResp 400, fs)
  | some f =>
    if !truthyStr req.projectPath then (errResp 400, fs)
    else
      let pp := req.projectPath.getD []
      let ext := extname f.originalname
      let instName := ("installation").toList ++ ext
      let installPath := pathJoin3 pp (("1.INSTALLATION").toList) instName
      match fs.moveFile f.path installPath with
      | .error _ => (errResp 500, fs)
      | .ok fs2 =>
        ({ status := 200, success := true, filePath := some installPath,
           fileName := some instName, fileSize := some f.size }, fs2)

/-- The handler of POST /api/upload-source (`server.js` lines 215-240). -/
def uploadSource (fs : FileSys) (req : UploadReq) : UploadResp × FileSys :=
  match req.file with
  | none => (errResp 400, fs)
  | some f =>
    if !truthyStr req.projectPath then (errResp 400, fs)
    else
      let pp := req.projectPath.getD []
      let sourcePath :=
        pathJoin3 pp (("3.SOURCE").toList) (("project.zip").toList)
      match fs.moveFile f.path sourcePath with
      | .error _ => (errResp 500, fs)
      | .ok fs2 =>
        ({ status := 200, success := true, filePath := some sourcePath,
           fileName := some (("project.zip").toList),
           fileSize := some f.size }, fs2)

/-- The multer file-size limit (`server.js` lines 39-41). -/
def fileSizeLimit : Nat := 50 * 1024 * 1024

/-- The multer gate configured at `server.js` lines 37-42: a file larger
than the limit aborts the request before the route handler runs, on the
Express error path (an unsuccessful response, no file placed). -/
def withMulterGate (handler : FileSys → UploadReq → UploadResp × FileSys)
    (fs : FileSys) (req : UploadReq) : UploadResp × FileSys :=
  match req.file with
  | some f =>
    if f.size > fileSizeLimit then (errResp 500, fs) else handler fs req
  | none => handler fs req

/-- POST /api/upload-readme as mounted, multer gate included. -/
def uploadReadmeEndpoint : FileSys → UploadReq → UploadResp × FileSys :=
  withMulterGate uploadReadme

/-- POST /api/upload-installation as mounted, multer gate included. -/
def uploadInstallationEndpoint : FileSys → UploadReq → UploadResp × FileSys :=
  withMulterGate uploadInstallation

/-- POST /api/upload-source as mounted, multer gate included. -/
def uploadSourceEndpoint : FileSys → UploadReq → UploadResp × FileSys :=
  withMulterGate uploadSource

/-- A file-metadata object of the complete-project request body.  Either
field can be absent, in which case the handler falls back to a default
(JavaScript `||`). -/
structure FileInfo where
  name : Option JSStr
  size : Option Nat
deriving DecidableEq

/-- The body of a POST /api/complete-project request.  Every field can
be absent. -/
structure CompleteReq where
  projectName : Option JSStr
  teamMembers : Option (List TeamMember)
  projectPath : Option JSStr
  folderName : Option JSStr
  readmeFile : Option FileInfo
  installationFile : Option FileInfo
  sourceFile : Option FileInfo
deriving DecidableEq

/-- Response of POST /api/complete-project. -/
structure CPResponse where
  status : Nat
  success : Bool
  projectData : Option ProjectRecord
deriving DecidableEq

/-- JavaScript `x.name || dflt`: the default applies when the field is
absent or the empty string. -/
def jsOrStr (o : Option JSStr) (dflt : JSStr) : JSStr :=
  match o with
  | none => dflt
  | some s => if s.isEmpty then dflt else s

/-- Evaluation of the `files` part of the `projectData` object literal
(`server.js` lines 270-286).  Reading a field of an absent
file-metadata object is a thrown TypeError, modelled by the error
case. -/
def buildFiles (pp : JSStr) (rf instF srcF : Option FileInfo) :
    Except Unit FilesMap :=
  match rf, instF, srcF with
  | some r, some i, some s =>
    .ok {
      readme := {
        name := jsOrStr r.name (("ReadMe.txt").toList),
        path := pathJoin3 pp (("2.README").toList)
          (jsOrStr r.name (("ReadMe.txt").toList)),
        size := r.size.getD 0 },
      installation := {
        name := jsOrStr i.name (("installation.txt").toList),
        path := pathJoin3 pp (("1.INSTALLATION").toList)
          (jsOrStr i.name (("installation.txt").toList)),
        size := i.size.getD 0 },
      source := {
        name := ("project.zip").toList,
        path := pathJoin3 pp (("3.SOURCE").toList) (("project.zip").toList),
        size := s.size.getD 0 },
      studentInfo := none,
      teamMembers := none }
  | _, _, _ => .error ()

/-- The handler of POST /api/complete-project (`server.js` lines
243-349).  The duplicated save of line 308 (`createProject` called
unconditionally after the upsert branch) is part of the source and is
embedded as such.  The sidecar `project-info.json` write of lines
337-338 is not tracked in the filesystem model (no claim concerns
it). -/
def completeProject (st : ServerState) (req : CompleteReq) :
    CPResponse × ServerState :=
  if !(truthyStr req.projectName && req.teamMembers.isSome &&
       truthyStr req.projectPath) then
    ({ status := 400, success := false, projectData := none }, st)
  else
    let name := req.projectName.getD []
    let tm := req.teamMembers.getD []
    let pp := req.projectPath.getD []
    let freshId := uuidFrom st.uuidCounter
    let st1 := { st with uuidCounter := st.uuidCounter + 1 }
    match buildFiles pp req.readmeFile req.installationFile req.sourceFile with
    | .error _ => ({ status := 500, success := false, projectData := none }, st1)
    | .ok files =>
      let pd0 : ProjectRecord := {
        id := freshId, projectName := name, timestamp := st.nowISO,
        teamMembers := tm, folderName := req.folderName,
        projectPath := pp, files := files }
      let existing := (Store.getAllProjects st1.store).find?
        (fun p => decide (p.projectName = name) && decide (p.projectPath = pp))
      let pd1 :=
        match existing with
        | some ex => { pd0 with id := ex.id, timestamp := ex.timestamp }
        | none => pd0
      let store1 :=
        match existing with
        | some ex => Store.updateProject st1.store ex.id pd1
        | none => Store.createProject st1.store pd1
      let store2 := Store.createProject store1 pd1
      let siPath := pathJoin pp studentInfoTxt
      match fsLookup st1.fs.files siPath with
      | some n =>
        let pd2 := { pd1 with files := { pd1.files with
          studentInfo := some {
            name := studentInfoTxt, path := siPath, size := n } } }
        ({ status := 200, success := true, projectData := some pd2 },
         { st1 with store := store2 })
      | none =>
        let content := studentInfoHeader name tm st.nowLocale
        match st1.fs.writeFile siPath content with
        | .error _ =>
          ({ status := 500, success := false, projectData := none },
           { st1 with store := store2 })
        | .ok fs2 =>
          let pd2 := { pd1 with files := { pd1.files with
            studentInfo := some {
              name := studentInfoTxt, path := siPath,
              size := jsLength content } } }
          ({ status := 200, success := true, projectData := some pd2 },
           { st1 with store := store2, fs := fs2 })

/-- Response of GET /api/download-project/:projectId: the streamed
archive is represented by the attachment name and the directory
archived. -/
structure DlResponse where
  status : Nat
  success : Bool
  attachmentName : Option JSStr
  archivedDir : Option JSStr
deriving DecidableEq

/-- The handler of GET /api/download-project/:projectId (`server.js`
lines 465-499).  Express binds the captured segment under the key
`projectId` in `req.params`; the handler reads `req.params.id`
(line 467), which is `undefined`. -/
def downloadProject (st : ServerState) (params : List (JSStr × JSStr)) :
    DlResponse :=
  let projectId :=
    (params.find? (fun e => decide (e.1 = ("id").toList))).map (fun e => e.2)
  match Store.getProjectById st.store projectId with
  | none =>
    { status := 404, success := false, attachmentName := none,
      archivedDir := none }
  | some project =>
    if !(st.fs.existsS project.projectPath) then
      { status := 404, success := false, attachmentName := none,
        archivedDir := none }
    else
      { status := 200, success := true,
        attachmentName := some ((project.folderName.getD []) ++ (".zip").toList),
        archivedDir := some project.projectPath }

/-- The route as mounted: the path pattern names its one segment
`projectId`, so Express supplies `params` with that single key. -/
def downloadProjectEndpoint (st : ServerState) (pid : JSStr) : DlResponse :=
  downloadProject st [((("projectId").toList), pid)]

/-- One guarded directory rename of the migration body (`server.js`
lines 526-545): move only when the old directory exists and the new one
does not; a thrown IO error carries the filesystem state reached so
far. -/
def tryMove (fs : FileSys) (src dst : JSStr) :
    Except (JSStr × FileSys) (FileSys × Bool) :=
  if fs.existsS src && !(fs.existsS dst) then
    match fs.moveDir src dst with
    | .error e => .error (e, fs)
    | .ok fs2 => .ok (fs2, true)
  else .ok (fs, false)

/-- A guarded file removal (`server.js` lines 563-570): remove only when
the path exists. -/
def tryRemove (fs : FileSys) (p : JSStr) :
    Except (JSStr × FileSys) FileSys :=
  if fs.existsS p then
    match fs.removeF p with
    | .error e => .error (e, fs)
    | .ok fs2 => .ok fs2
  else .ok fs

/-- The student-info backfill block of the migration body (`server.js`
lines 547-588). -/
def migrateStudentInfo (fs3 : FileSys) (project : ProjectRecord)
    (localeNow : JSStr) (moved : Bool) :
    Except (JSStr × FileSys) (FileSys × ProjectRecord × Bool) :=
  let siPath := pathJoin project.projectPath studentInfoTxt
  let tmPath := pathJoin project.projectPath (("team-members.txt").toList)
  let oldNumPath :=
    pathJoin project.projectPath (("4.Student-info.txt").toList)
  if !(fs3.existsS siPath) && !project.teamMembers.isEmpty then
    let header :=
      studentInfoHeader project.projectName project.teamMembers localeNow
    match fs3.writeFile siPath header with
    | .error e => .error (e, fs3)
    | .ok fs4 =>
      match tryRemove fs4 tmPath with
      | .error e => .error e
      | .ok fs5 =>
        match tryRemove fs5 oldNumPath with
        | .error e => .error e
        | .ok fs6 =>
          let project2 := { project with files := { project.files with
            studentInfo := some {
              name := studentInfoTxt, path := siPath,
              size := jsLength header },
            teamMembers := none } }
          .ok (fs6, project2, true)
  else .ok (fs3, project, moved)

/-- The per-project body of POST /api/update-existing-folders
(`server.js` lines 519-593): skip when the project folder is missing,
otherwise rename the three legacy subfolders and backfill
`student-info.txt`.  The boolean is `needsUpdate`. -/
def migrateOne (fs : FileSys) (project : ProjectRecord) (localeNow : JSStr) :
    Except (JSStr × FileSys) (FileSys × ProjectRecord × Bool) :=
  if fs.existsS project.projectPath then
    match tryMove fs (pathJoin project.projectPath (("README").toList))
        (pathJoin project.projectPath (("2.README").toList)) with
    | .error e => .error e
    | .ok (fs1, u1) =>
      match tryMove fs1 (pathJoin project.projectPath (("INSTALLATION").toList))
          (pathJoin project.projectPath (("1.INSTALLATION").toList)) with
      | .error e => .error e
      | .ok (fs2, u2) =>
        match tryMove fs2 (pathJoin project.projectPath (("SOURCE").toList))
            (pathJoin project.projectPath (("3.SOURCE").toList)) with
        | .error e => .error e
        | .ok (fs3, u3) =>
          migrateStudentInfo fs3 project localeNow (u1 || u2 || u3)
  else .ok (fs, project, false)

/-- The migration loop of POST /api/update-existing-folders (`server.js`
lines 518-598): iterate over the snapshot of all records, catch the
error of each failing project and continue, store an update and count
the project when its body reports `needsUpdate`. -/
def migLoop (localeNow : JSStr) :
    FileSys → List ProjectRecord → List ProjectRecord →
    FileSys × List ProjectRecord × Nat
  | fs, store, [] => (fs, store, 0)
  | fs, store, p :: rest =>
    match migrateOne fs p localeNow with
    | .ok (fs2, p2, needsUpdate) =>
      if needsUpdate then
        let r := migLoop localeNow fs2 (Store.updateProject store p.id p2) rest
        (r.1, r.2.1, r.2.2 + 1)
      else migLoop localeNow fs2 store rest
    | .error (_, fs2) => migLoop localeNow fs2 store rest

/-- The per-project outcome trace of the migration loop: one entry per
record, true exactly when that project was updated (a caught error
yields false and the trace continues). -/
def migTrace (localeNow : JSStr) : FileSys → List ProjectRecord → List Bool
  | _, [] => []
  | fs, p :: rest =>
    match migrateOne fs p localeNow with
    | .ok (fs2, _, b) => b :: migTrace localeNow fs2 rest
    | .error (_, fs2) => false :: migTrace localeNow fs2 rest

/-- Response of POST /api/update-existing-folders. -/
structure MigResp where
  status : Nat
  success : Bool
  updatedCount : Nat
deriving DecidableEq

/-- The handler of POST /api/update-existing-folders (`server.js` lines
513-609). -/
def updateExistingFolders (st : ServerState) : MigResp × ServerState :=
  let r := migLoop st.nowLocale st.fs st.store (Store.getAllProjects st.store)
  ({ status := 200, success := true, updatedCount := r.2.2 },
   { st with fs := r.1, store := r.2.1 })

section ConcreteInputs

/-- A valid complete-project request body used as a concrete input. -/
def reqA : CompleteReq := {
  projectName := some (("Proj").toList),
  teamMembers := some [⟨("Alice").toList, ("U1").toList⟩],
  projectPath := some (("/base/Proj_2025").toList),
  folderName := some (("Proj_2025").toList),
  readmeFile := some ⟨some (("ReadMe.md").toList), some 10⟩,
  installationFile := some ⟨some (("installation.pdf").toList), some 20⟩,
  sourceFile := some ⟨none, some 5⟩ }

/-- The empty initial server state. -/
def stA : ServerState := {
  store := [], uuidCounter := 0,
  fs := ⟨[], [], []⟩,
  nowISO := ("2025-01-01T00:00:00.000Z").toList,
  nowLocale := ("1/1/2025, 10:00:00 AM").toList }

/-- The same submission sent a second time with different readme
metadata, as in a repeat completion. -/
def reqA2 : CompleteReq :=
  { reqA with readmeFile := some ⟨some (("ReadMe.txt").toList), some 11⟩ }

/-- The state after the first complete-project call. -/
def stA1 : ServerState := (completeProject stA reqA).2

/-- The state after the second complete-project call (later clock). -/
def stA2 : ServerState :=
  (completeProject
    { stA1 with nowISO := ("2025-02-02T00:00:00.000Z").toList } reqA2).2

end ConcreteInputs

/-- C1: calling complete-project twice with identical projectName and
projectPath does not leave one record: the unconditional save at
`server.js` line 308 runs after the upsert branch on every call, so the
store ends with three records for the pair. -/
theorem c1_repeat_completion_leaves_three_records :
    (stA2.store.filter (fun p =>
      decide (p.projectName = ("Proj").toList) &&
      decide (p.projectPath = ("/base/Proj_2025").toList))).length = 3 ∧
    (completeProject stA reqA).1.success = true ∧
    (completeProject
      { stA1 with nowISO := ("2025-02-02T00:00:00.000Z").toList } reqA2).1.success
      = true := by
  decide

/-- C3: stored record identifiers are not pairwise distinct in every
reachable state: a single valid complete-project call from the empty
store saves the same record twice (`server.js` lines 303 and 308), so
two records share one identifier. -/
theorem c3_single_call_duplicates_id :
    ¬ ((stA1.store.map ProjectRecord.id).Nodup) ∧ stA1.store.length = 2 := by
  decide

section ConcreteDownload

/-- A stored record whose folder exists on disk. -/
def recB : ProjectRecord := {
  id := ("u7").toList,
  projectName := ("Proj").toList,
  timestamp := ("2025-01-01T00:00:00.000Z").toList,
  teamMembers := [],
  folderName := some (("Proj_2025").toList),
  projectPath := ("/base/Proj_2025").toList,
  files := {
    readme := ⟨[], [], 0⟩, installation := ⟨[], [], 0⟩,
    source := ⟨[], [], 0⟩, studentInfo := none, teamMembers := none } }

/-- A server state holding that record, its folder present. -/
def stB : ServerState := {
  store := [recB], uuidCounter := 8,
  fs := ⟨[], [("/base/Proj_2025").toList], []⟩,
  nowISO := ("2025-01-01T00:00:00.000Z").toList,
  nowLocale := ("1/1/2025, 10:00:00 AM").toList }

end ConcreteDownload

/-- C2: the whole-project download endpoint responds 404 for every
request, because the handler reads `req.params.id` while the route
declares the segment `:projectId`; in particular it responds 404 even
when the record is stored and its folder exists. -/
theorem c2_download_project_always_404 :
    (∀ st pid, (downloadProjectEndpoint st pid).status = 404) ∧
    (Store.getProjectById stB.store (some (("u7").toList))).isSome = true ∧
    stB.fs.existsS (("/base/Proj_2025").toList) = true ∧
    (downloadProjectEndpoint stB (("u7").toList)).status = 404 := by
  refine ⟨fun st pid => rfl, by decide, by decide, by decide⟩

/-- C6: every upload endpoint responds 400 with success false when no
file is present or when projectPath is missing from the body, and the
multer configuration caps the accepted file size at 50 MiB: any larger
file aborts the request on the error path, with no file placed. -/
theorem c6_upload_validation_and_size_cap :
    (∀ fs pp,
      (uploadReadmeEndpoint fs { file := none, projectPath := pp }).1 =
        errResp 400 ∧
      (uploadInstallationEndpoint fs { file := none, projectPath := pp }).1 =
        errResp 400 ∧
      (uploadSourceEndpoint fs { file := none, projectPath := pp }).1 =
        errResp 400) ∧
    (∀ fs f, f.size ≤ fileSizeLimit →
      (uploadReadmeEndpoint fs { file := some f, projectPath := none }).1 =
        errResp 400 ∧
      (uploadInstallationEndpoint fs { file := some f, projectPath := none }).1 =
        errResp 400 ∧
      (uploadSourceEndpoint fs { file := some f, projectPath := none }).1 =
        errResp 400) ∧
    fileSizeLimit = 50 * 1024 * 1024 ∧
    (∀ fs f pp, f.size > fileSizeLimit →
      uploadReadmeEndpoint fs { file := some f, projectPath := pp } =
        (errResp 500, fs) ∧
      uploadInstallationEndpoint fs { file := some f, projectPath := pp } =
        (errResp 500, fs) ∧
      uploadSourceEndpoint fs { file := some f, projectPath := pp } =
        (errResp 500, fs)) := by
  refine ⟨fun fs pp => ⟨rfl, rfl, rfl⟩, fun fs f h => ?_, rfl, fun fs f pp h => ?_⟩
  · have h1 : ¬ (f.size > fileSizeLimit) := by omega
    refine ⟨?_, ?_, ?_⟩ <;>
      simp [uploadReadmeEndpoint, uploadInstallationEndpoint,
        uploadSourceEndpoint, withMulterGate, uploadReadme, uploadInstallation,
        uploadSource, truthyStr, h1]
  · refine ⟨?_, ?_, ?_⟩ <;>
      simp [uploadReadmeEndpoint, uploadInstallationEndpoint,
        uploadSourceEndpoint, withMulterGate, h]

/-- C6 witness: the validation and cap behaviour at concrete inputs. -/
theorem c6_upload_validation_and_size_cap_witness :
    (uploadReadmeEndpoint ⟨[], [], []⟩
      { file := none, projectPath := some (("/p").toList) }).1 = errResp 400 ∧
    (uploadReadmeEndpoint ⟨[], [], []⟩
      { file := some ⟨("a.txt").toList, 7, ("/tmp0").toList⟩,
        projectPath := none }).1 = errResp 400 ∧
    uploadReadmeEndpoint ⟨[], [], []⟩
      { file := some ⟨("a.txt").toList, 52428801, ("/tmp0").toList⟩,
        projectPath := some (("/p").toList) } = (errResp 500, ⟨[], [], []⟩) :=
  ⟨(c6_upload_validation_and_size_cap.1 _ _).1,
   (c6_upload_validation_and_size_cap.2.1 _ _ (by decide)).1,
   (c6_upload_validation_and_size_cap.2.2.2 _ _ _ (by decide)).1⟩

/-- C10: a complete-project request carrying the three required fields
but lacking any of the file-metadata objects is not rejected with 400:
the handler throws reading a field of the missing object and the catch
block responds 500 with success false. -/
theorem c10_missing_file_object_gives_500
    (st : ServerState) (req : CompleteReq)
    (hname : truthyStr req.projectName = true)
    (htm : req.teamMembers.isSome = true)
    (hpp : truthyStr req.projectPath = true)
    (hmiss : req.readmeFile = none ∨ req.installationFile = none ∨
      req.sourceFile = none) :
    (completeProject st req).1.status = 500 ∧
    (completeProject st req).1.success = false := by
  have hb : buildFiles (req.projectPath.getD []) req.readmeFile
      req.installationFile req.sourceFile = .error () := by
    rcases hmiss with h | h | h <;> rw [h] <;>
      cases req.readmeFile <;> cases req.installationFile <;>
      cases req.sourceFile <;> rfl
  simp only [completeProject, hname, htm, hpp, Bool.and_self, Bool.not_true,
    Bool.false_eq_true, if_false, hb]
  simp

/-- C10 witness: the concrete request lacking its readme metadata
object receives a 500 response. -/
theorem c10_missing_file_object_gives_500_witness :
    (completeProject stA { reqA with readmeFile := none }).1.status = 500 ∧
    (completeProject stA { reqA with readmeFile := none }).1.success = false :=
  c10_missing_file_object_gives_500 stA { reqA with readmeFile := none }
    (by decide) (by decide) (by decide) (Or.inl rfl)

/-- C5: every successful upload is placed at the fixed target name of
its artifact subfolder — `installation<ext>` preserving the original
extension, `ReadMe<ext>` (`ReadMe.txt` when the original has no
extension), and `project.zip` for source — and the response reports
that final path, the final name, and the uploaded byte size. -/
theorem c5_upload_fixed_target_names
    (fs : FileSys) (f : UploadedFile) (pp : JSStr)
    (hpp : pp ≠ [])
    (hsize : f.size ≤ fileSizeLimit)
    (hbroken : fs.broken = []) :
    (uploadReadmeEndpoint fs { file := some f, projectPath := some pp }).1 =
      { status := 200, success := true,
        filePath := some (pathJoin3 pp (("2.README").toList)
          (if !(extname f.originalname).isEmpty
           then ("ReadMe").toList ++ extname f.originalname
           else ("ReadMe.txt").toList)),
        fileName := some (if !(extname f.originalname).isEmpty
           then ("ReadMe").toList ++ extname f.originalname
           else ("ReadMe.txt").toList),
        fileSize := some f.size } ∧
    (uploadInstallationEndpoint fs { file := some f, projectPath := some pp }).1 =
      { status := 200, success := true,
        filePath := some (pathJoin3 pp (("1.INSTALLATION").toList)
          (("installation").toList ++ extname f.originalname)),
        fileName := some (("installation").toList ++ extname f.originalname),
        fileSize := some f.size } ∧
    (uploadSourceEndpoint fs { file := some f, projectPath := some pp }).1 =
      { status := 200, success := true,
        filePath := some (pathJoin3 pp (("3.SOURCE").toList)
          (("project.zip").toList)),
        fileName := some (("project.zip").toList),
        fileSize := some f.size } := by
  have h1 : ¬ (f.size > fileSizeLimit) := by omega
  have h2 : pp.isEmpty = false := by
    cases pp with
    | nil => exact absurd rfl hpp
    | cons a l => rfl
  refine ⟨?_, ?_, ?_⟩ <;>
    simp [uploadReadmeEndpoint, uploadInstallationEndpoint,
      uploadSourceEndpoint, withMulterGate, uploadReadme, uploadInstallation,
      uploadSource, truthyStr, h1, h2, hbroken, FileSys.moveFile]

/-- C5 witness: a 7-byte upload named guide.pdf into project /base/P. -/
theorem c5_upload_fixed_target_names_witness :
    (uploadReadmeEndpoint ⟨[((("/tmp/r1").toList), 7)], [], []⟩
      { file := some ⟨("guide.pdf").toList, 7, ("/tmp/r1").toList⟩,
        projectPath := some (("/base/P").toList) }).1 =
      { status := 200, success := true,
        filePath := some (pathJoin3 (("/base/P").toList) (("2.README").toList)
          (if !(extname (("guide.pdf").toList)).isEmpty
           then ("ReadMe").toList ++ extname (("guide.pdf").toList)
           else ("ReadMe.txt").toList)),
        fileName := some (if !(extname (("guide.pdf").toList)).isEmpty
           then ("ReadMe").toList ++ extname (("guide.pdf").toList)
           else ("ReadMe.txt").toList),
        fileSize := some 7 } ∧
    (uploadInstallationEndpoint ⟨[((("/tmp/r1").toList), 7)], [], []⟩
      { file := some ⟨("guide.pdf").toList, 7, ("/tmp/r1").toList⟩,
        projectPath := some (("/base/P").toList) }).1 =
      { status := 200, success := true,
        filePath := some (pathJoin3 (("/base/P").toList)
          (("1.INSTALLATION").toList)
          (("installation").toList ++ extname (("guide.pdf").toList))),
        fileName := some
          (("installation").toList ++ extname (("guide.pdf").toList)),
        fileSize := some 7 } ∧
    (uploadSourceEndpoint ⟨[((("/tmp/r1").toList), 7)], [], []⟩
      { file := some ⟨("guide.pdf").toList, 7, ("/tmp/r1").toList⟩,
        projectPath := some (("/base/P").toList) }).1 =
      { status := 200, success := true,
        filePath := some (pathJoin3 (("/base/P").toList) (("3.SOURCE").toList)
          (("project.zip").toList)),
        fileName := some (("project.zip").toList),
        fileSize := some 7 } :=
  c5_upload_fixed_target_names _ _ _ (by decide) (by decide) rfl

/-- C9: the destination of an uploaded file is computed directly from
the client-supplied projectPath; the handlers consult neither a base
directory nor the Record Store, so any path the client names receives
the file, with the byte size of the staged upload. -/
theorem c9_client_path_dictates_destination
    (fs : FileSys) (f : UploadedFile) (pp : JSStr)
    (hpp : pp ≠ [])
    (hsize : f.size ≤ fileSizeLimit)
    (hbroken : fs.broken = []) :
    ((uploadReadmeEndpoint fs { file := some f, projectPath := some pp }).1.success
        = true ∧
      fsLookup
        (uploadReadmeEndpoint fs { file := some f, projectPath := some pp }).2.files
        (pathJoin3 pp (("2.README").toList)
          (if !(extname f.originalname).isEmpty
           then ("ReadMe").toList ++ extname f.originalname
           else ("ReadMe.txt").toList)) =
        some ((fsLookup fs.files f.path).getD 0)) ∧
    ((uploadSourceEndpoint fs { file := some f, projectPath := some pp }).1.success
        = true ∧
      fsLookup
        (uploadSourceEndpoint fs { file := some f, projectPath := some pp }).2.files
        (pathJoin3 pp (("3.SOURCE").toList) (("project.zip").toList)) =
        some ((fsLookup fs.files f.path).getD 0)) := by
  have h1 : ¬ (f.size > fileSizeLimit) := by omega
  have h2 : pp.isEmpty = false := by
    cases pp with
    | nil => exact absurd rfl hpp
    | cons a l => rfl
  constructor <;>
    · constructor <;>
        simp [uploadReadmeEndpoint, uploadSourceEndpoint, withMulterGate,
          uploadReadme, uploadSource, truthyStr, h1, h2, hbroken,
          FileSys.moveFile, fsLookup, List.find?]

/-- C9 witness: a path outside any configured base directory receives
the uploaded file. -/
theorem c9_client_path_dictates_destination_witness :
    ((uploadReadmeEndpoint ⟨[((("/tmp/s1").toList), 9)], [], []⟩
        { file := some ⟨("a.md").toList, 9, ("/tmp/s1").toList⟩,
          projectPath := some (("/etc").toList) }).1.success = true ∧
      fsLookup
        (uploadReadmeEndpoint ⟨[((("/tmp/s1").toList), 9)], [], []⟩
          { file := some ⟨("a.md").toList, 9, ("/tmp/s1").toList⟩,
            projectPath := some (("/etc").toList) }).2.files
        (pathJoin3 (("/etc").toList) (("2.README").toList)
          (if !(extname (("a.md").toList)).isEmpty
           then ("ReadMe").toList ++ extname (("a.md").toList)
           else ("ReadMe.txt").toList)) =
        some ((fsLookup [((("/tmp/s1").toList), 9)] (("/tmp/s1").toList)).getD 0)) ∧
    ((uploadSourceEndpoint ⟨[((("/tmp/s1").toList), 9)], [], []⟩
        { file := some ⟨("a.md").toList, 9, ("/tmp/s1").toList⟩,
          projectPath := some (("/etc").toList) }).1.success = true ∧
      fsLookup
        (uploadSourceEndpoint ⟨[((("/tmp/s1").toList), 9)], [], []⟩
          { file := some ⟨("a.md").toList, 9, ("/tmp/s1").toList⟩,
            projectPath := some (("/etc").toList) }).2.files
        (pathJoin3 (("/etc").toList) (("3.SOURCE").toList)
          (("project.zip").toList)) =
        some ((fsLookup [((("/tmp/s1").toList), 9)] (("/tmp/s1").toList)).getD 0)) :=
  c9_client_path_dictates_destination _ _ _ (by decide) (by decide) rfl

lemma migLoop_count_eq_trace (localeNow : JSStr) (fs : FileSys)
    (store l : List ProjectRecord) :
    (migLoop localeNow fs store l).2.2 =
      (migTrace localeNow fs l).count true := by
  induction l generalizing fs store with
  | nil => rfl
  | cons p rest ih =>
    cases h : migrateOne fs p localeNow with
    | ok v =>
      obtain ⟨fs2, p2, b⟩ := v
      cases b <;> simp [migLoop, migTrace, h, ih, List.count_cons]
    | error e =>
      obtain ⟨e1, fs2⟩ := e
      simp [migLoop, migTrace, h, ih, List.count_cons]

lemma migTrace_length (localeNow : JSStr) (fs : FileSys)
    (l : List ProjectRecord) :
    (migTrace localeNow fs l).length = l.length := by
  induction l generalizing fs with
  | nil => rfl
  | cons p rest ih =>
    cases h : migrateOne fs p localeNow with
    | ok v =>
      obtain ⟨fs2, p2, b⟩ := v
      simp [migTrace, h, ih]
    | error e =>
      obtain ⟨e1, fs2⟩ := e
      simp [migTrace, h, ih]

/-- C7: a per-project error in the legacy folder migration does not
abort the batch: the endpoint still succeeds, the failing head project
contributes a false entry to the outcome trace while the remaining
projects are still processed (the trace covers every stored record),
and the response reports the aggregate count of projects actually
updated. -/
theorem c7_migration_isolates_failures
    (st : ServerState) (p : ProjectRecord) (rest : List ProjectRecord)
    (e : JSStr) (fs2 : FileSys)
    (hstore : st.store = p :: rest)
    (herr : migrateOne st.fs p st.nowLocale = .error (e, fs2)) :
    (updateExistingFolders st).1.success = true ∧
    (updateExistingFolders st).1.status = 200 ∧
    migTrace st.nowLocale st.fs st.store =
      false :: migTrace st.nowLocale fs2 rest ∧
    (migTrace st.nowLocale st.fs st.store).length = st.store.length ∧
    (updateExistingFolders st).1.updatedCount =
      (migTrace st.nowLocale st.fs st.store).count true := by
  refine ⟨rfl, rfl, ?_, migTrace_length _ _ _, ?_⟩
  · rw [hstore]
    simp [migTrace, herr]
  · simp [updateExistingFolders, Store.getAllProjects, migLoop_count_eq_trace]

section ConcreteMigration

/-- A legacy project whose old README folder cannot be moved (an IO
error on that path). -/
def p1W : ProjectRecord := {
  id := ("u1").toList, projectName := ("A").toList,
  timestamp := [], teamMembers := [⟨("Bea").toList, ("U2").toList⟩],
  folderName := none, projectPath := ("/a").toList,
  files := {
    readme := ⟨[], [], 0⟩, installation := ⟨[], [], 0⟩,
    source := ⟨[], [], 0⟩, studentInfo := none, teamMembers := none } }

/-- A legacy project that migrates cleanly. -/
def p2W : ProjectRecord := {
  id := ("u2").toList, projectName := ("B").toList,
  timestamp := [], teamMembers := [⟨("Cal").toList, ("U3").toList⟩],
  folderName := none, projectPath := ("/b").toList,
  files := {
    readme := ⟨[], [], 0⟩, installation := ⟨[], [], 0⟩,
    source := ⟨[], [], 0⟩, studentInfo := none, teamMembers := none } }

/-- A server state in which the first project fails to migrate and the
second succeeds. -/
def stW : ServerState := {
  store := [p1W, p2W], uuidCounter := 3,
  fs := ⟨[],
    [("/a").toList, pathJoin (("/a").toList) (("README").toList),
     ("/b").toList, pathJoin (("/b").toList) (("INSTALLATION").toList)],
    [pathJoin (("/a").toList) (("README").toList)]⟩,
  nowISO := ("2025-01-01T00:00:00.000Z").toList,
  nowLocale := ("1/1/2025, 10:00:00 AM").toList }

end ConcreteMigration

/-- C7 witness: with the first of two stored projects failing, the
endpoint succeeds, every record is still processed, and the reported
count matches the outcome trace. -/
theorem c7_migration_isolates_failures_witness :
    (updateExistingFolders stW).1.success = true ∧
    (updateExistingFolders stW).1.status = 200 ∧
    migTrace stW.nowLocale stW.fs stW.store =
      false :: migTrace stW.nowLocale stW.fs [p2W] ∧
    (migTrace stW.nowLocale stW.fs stW.store).length = stW.store.length ∧
    (updateExistingFolders stW).1.updatedCount =
      (migTrace stW.nowLocale stW.fs stW.store).count true :=
  c7_migration_isolates_failures stW p1W [p2W] (("EPERM").toList) stW.fs
    rfl rfl

lemma jsLength_eq_utf8Len_of_ascii {s : JSStr}
    (h : s.all (fun c => decide (c.toNat < 128)) = true) :
    jsLength s = utf8Len s := by
  induction s with
  | nil => rfl
  | cons c rest ih =>
    simp only [List.all_cons, Bool.and_eq_true, decide_eq_true_eq] at h
    obtain ⟨h1, h2⟩ := h
    have hrest := ih h2
    simp only [jsLength, utf8Len, List.map_cons, List.sum_cons] at hrest ⊢
    rw [if_pos (show c.toNat < 65536 by omega), if_pos h1]
    omega

section ConcreteStudentInfo

/-- A complete-project request whose team list carries a non-ASCII
member name. -/
def reqC8 : CompleteReq := {
  projectName := some (("Proj").toList),
  teamMembers := some [⟨("René").toList, ("U1").toList⟩],
  projectPath := some (("/base/Proj_2025").toList),
  folderName := some (("Proj_2025").toList),
  readmeFile := some ⟨some (("ReadMe.md").toList), some 10⟩,
  installationFile := some ⟨some (("installation.pdf").toList), some 20⟩,
  sourceFile := some ⟨none, some 5⟩ }

/-- An initial state without a student-info file on disk. -/
def stC8 : ServerState := {
  store := [], uuidCounter := 0, fs := ⟨[], [], []⟩,
  nowISO := ("2025-01-01T00:00:00.000Z").toList,
  nowLocale := ("1/1/2025, 10:00:00 AM").toList }

end ConcreteStudentInfo

/-- C8 counterexample: when the handler itself creates student-info.txt
and the content is not ASCII, the recorded size (JavaScript string
length, `server.js` line 326) differs from the byte size of the file
written to disk; the second conjunct shows this is the creation case. -/
theorem c8_counterexample_recorded_size_not_bytes :
    ((completeProject stC8 reqC8).1.projectData.bind
        (fun pd => pd.files.studentInfo)).map FileMeta.size ≠
      fsLookup (completeProject stC8 reqC8).2.fs.files
        (pathJoin (("/base/Proj_2025").toList)
          studentInfoTxt) ∧
    fsLookup stC8.fs.files
      (pathJoin (("/base/Proj_2025").toList) studentInfoTxt)
      = none := by
  decide

/-- C8 amended: the recorded student-info size is the on-disk byte size
when the file already exists at completion time; when the handler
creates the file because it was absent, the recorded size is the UTF-16
length of the generated content — which equals the byte size exactly
when the content is ASCII-only. -/
theorem c8_student_info_size_amended
    (st : ServerState) (req : CompleteReq) (name : JSStr)
    (tm : List TeamMember) (pp : JSStr)
    (hname : req.projectName = some name) (hname2 : name ≠ [])
    (htm : req.teamMembers = some tm)
    (hpp : req.projectPath = some pp) (hpp2 : pp ≠ [])
    (hrf : req.readmeFile.isSome = true)
    (hif : req.installationFile.isSome = true)
    (hsf : req.sourceFile.isSome = true)
    (hnb : pathJoin pp studentInfoTxt ∉ st.fs.broken) :
    (∀ n, fsLookup st.fs.files (pathJoin pp studentInfoTxt)
        = some n →
      ((completeProject st req).1.projectData.bind
        (fun pd => pd.files.studentInfo)).map FileMeta.size = some n) ∧
    (fsLookup st.fs.files (pathJoin pp studentInfoTxt) = none →
      ((completeProject st req).1.projectData.bind
        (fun pd => pd.files.studentInfo)).map FileMeta.size =
        some (jsLength (studentInfoHeader name tm st.nowLocale)) ∧
      fsLookup (completeProject st req).2.fs.files
        (pathJoin pp studentInfoTxt) =
        some (utf8Len (studentInfoHeader name tm st.nowLocale)) ∧
      ((studentInfoHeader name tm st.nowLocale).all
          (fun c => decide (c.toNat < 128)) = true →
        jsLength (studentInfoHeader name tm st.nowLocale) =
          utf8Len (studentInfoHeader name tm st.nowLocale))) := by
  obtain ⟨r, hr⟩ := Option.isSome_iff_exists.mp hrf
  obtain ⟨i, hi⟩ := Option.isSome_iff_exists.mp hif
  obtain ⟨s, hs⟩ := Option.isSome_iff_exists.mp hsf
  have hne : name.isEmpty = false := by
    cases name with
    | nil => exact absurd rfl hname2
    | cons a l => rfl
  have hpe : pp.isEmpty = false := by
    cases pp with
    | nil => exact absurd rfl hpp2
    | cons a l => rfl
  have hb : (pathJoin pp studentInfoTxt ∈ st.fs.broken) = False := by
    simp [hnb]
  constructor
  · intro n hn
    simp only [completeProject, hname, htm, hpp, hr, hi, hs, Option.getD_some]
    rw [hn]
    simp [truthyStr, hne, hpe, buildFiles]
  · intro hn
    refine ⟨?_, ?_, fun hascii => jsLength_eq_utf8Len_of_ascii hascii⟩ <;>
    · simp only [completeProject, hname, htm, hpp, hr, hi, hs, Option.getD_some]
      rw [hn]
      simp [truthyStr, hne, hpe, buildFiles, FileSys.writeFile, hb, fsLookup,
        List.find?]

section ConcreteStudentInfoAscii

/-- The same completion with an ASCII-only team list. -/
def reqC8a : CompleteReq :=
  { reqC8 with teamMembers := some [⟨("Ann").toList, ("U1").toList⟩] }

end ConcreteStudentInfoAscii

/-- C8 witness: in the creation case with ASCII content, the recorded
size, the on-disk byte size, and the UTF-16 length coincide. -/
theorem c8_student_info_size_amended_witness :
    ((completeProject stC8 reqC8a).1.projectData.bind
      (fun pd => pd.files.studentInfo)).map FileMeta.size =
      some (jsLength (studentInfoHeader (("Proj").toList)
        [⟨("Ann").toList, ("U1").toList⟩] stC8.nowLocale)) ∧
    fsLookup (completeProject stC8 reqC8a).2.fs.files
      (pathJoin (("/base/Proj_2025").toList) studentInfoTxt) =
      some (utf8Len (studentInfoHeader (("Proj").toList)
        [⟨("Ann").toList, ("U1").toList⟩] stC8.nowLocale)) ∧
    jsLength (studentInfoHeader (("Proj").toList)
        [⟨("Ann").toList, ("U1").toList⟩] stC8.nowLocale) =
      utf8Len (studentInfoHeader (("Proj").toList)
        [⟨("Ann").toList, ("U1").toList⟩] stC8.nowLocale) := by
  have h := (c8_student_info_size_amended stC8 reqC8a (("Proj").toList)
    [⟨("Ann").toList, ("U1").toList⟩] (("/base/Proj_2025").toList)
    rfl (by decide) rfl rfl (by decide) rfl rfl rfl (by decide)).2 rfl
  exact ⟨h.1, h.2.1, h.2.2 (by decide)⟩

end SPP
